import Mathlib

/-!
Shallow embedding of the media upload/processing flows of the Eveyka
repository.

The repository contains three TypeScript source files:

* `src/ai/flows/upload-media-flow.ts` — the named upload flow variant
  (`uploadMedia` / `uploadMediaFlow`): builds ImageKit upload options,
  calls the service, and normalizes the response and errors.
* an unnamed second variant of the same upload flow (embedded here with
  the `Alt` suffix): same shape, but a different video-thumbnail
  transformation, no metadata thumbnail fallback, and different error
  message formatting.
* `src/ai/flows/process-and-upload-media-flow.ts` — the orchestrator
  (`processAndUploadMedia` / `processAndUploadMediaFlow`): uploads, then
  optionally extracts a dominant color for images, then assembles the
  result.

External collaborators (the ImageKit upload service and the generative
color model) are modelled as function parameters (`UploadService`,
`ColorModel`): the flows' behaviour is stated for every possible
behaviour of those collaborators.  JavaScript `string | undefined`
values are modelled as `Option String`, with `none` for `undefined`;
JavaScript truthiness of such a value (`!x`, `x || y`) is `jsTruthy` /
`jsOr`, under which both `undefined` and the empty string are falsy.
Thrown JS errors are modelled with `Except`, an error carrying an
optional `message` string.
-/

/-- Truthiness of a JS `string | undefined` value: `undefined` and `""`
are falsy, every other string is truthy. -/
def jsTruthy : Option String → Bool
  | none => false
  | some s => !(s = "")

/-- JS `a || b` on `string | undefined` values: `b` when `a` is falsy. -/
def jsOr (a b : Option String) : Option String :=
  if jsTruthy a then a else b

/-- A thrown JS error, as observed by a `catch (error)` block: only its
(possibly absent) `message` matters to the flows. -/
structure JsError where
  message : Option String
deriving DecidableEq, Repr

/-- `error.message || fallback`: the message when it is a non-empty
string, the fallback otherwise. -/
def errMessageOr (e : JsError) (fallback : String) : String :=
  match e.message with
  | some m => if m = "" then fallback else m
  | none => fallback

/-- Options of one entry of the inline transformation list of
`upload-media-flow.ts`: `\x7b "format": "jpg", "quality": 80 \x7d`. -/
structure InlineTransformationOptions where
  format : String
  quality : Nat
deriving DecidableEq, Repr

/-- One entry of the inline transformation list of
`upload-media-flow.ts`. -/
structure InlineTransformation where
  name : String
  options : InlineTransformationOptions
deriving DecidableEq, Repr

/-- The `transformation` value attached to the upload options: the named
variant attaches an inline list of transformations, the unnamed variant
a named pre-transformation pipeline. -/
inductive Transformation where
  | inlineList (items : List InlineTransformation)
  | preNamed (pre : String)
deriving DecidableEq, Repr

/-- The options object passed to `imagekit.upload`. -/
structure UploadOptions where
  file : String
  fileName : String
  useUniqueFileName : Bool
  transformation : Option Transformation
deriving DecidableEq, Repr

/-- The observable part of an `imagekit.upload` response:
`url`, `thumbnailUrl`, and `(response.metadata as any)?.thumbnailUrl`
(the latter collapsed to the optional string the flow reads). -/
structure UploadResponse where
  url : Option String
  thumbnailUrl : Option String
  metadataThumbnailUrl : Option String
deriving DecidableEq, Repr

/-- The behaviour of the external upload service on one request: either
a thrown error or a response. -/
abbrev UploadService := UploadOptions → Except JsError UploadResponse

/-- `UploadMediaInput` of both upload flow variants: the data URI and
the optional video flag. -/
structure UploadMediaInput where
  mediaDataUri : String
  isVideo : Option Bool
deriving DecidableEq, Repr

/-- `UploadMediaOutput` of both upload flow variants. -/
structure UploadMediaOutput where
  mediaUrl : String
  thumbnailUrl : Option String
deriving DecidableEq, Repr

/-- Error message of the named upload variant's internal throw when the
service response has no URL. -/
def noUrlMsg : String := "ImageKit response did not include a URL."

/-- Prefix the named upload variant puts on every surfaced error. -/
def uploadFailedPrefixMsg : String := "Media upload failed: "

/-- Generic fallback of the named upload variant for an error without a
message. -/
def unknownImageKitErrorMsg : String := "Unknown ImageKit error"

/-- Generic fallback of the unnamed upload variant for an error without
a message. -/
def unknownUploadErrorMsg : String := "An unknown error occurred during media upload."

/-- Error message of the orchestrator's guard on a missing media URL. -/
def processNoUrlMsg : String := "Media upload failed to return a URL."

/-- The inline video-thumbnail transformation of the named variant:
`[\x7b "name": "Video Thumbnail", "options": \x7b "format": "jpg", "quality": 80 \x7d \x7d]`. -/
def videoThumbnailTransformation : Transformation :=
  Transformation.inlineList [⟨"Video Thumbnail", ⟨"jpg", 80⟩⟩]

/-- The pre-transformation pipeline of the unnamed variant:
`\x7b pre: "media-thumbnail-generator" \x7d`. -/
def preNamedThumbnailTransformation : Transformation :=
  Transformation.preNamed ("media-thumbnail-generator")

/-- The upload options built by the named variant (`upload-media-flow.ts`
lines 47-57): file, timestamped file name, uniqueness flag, and — only
when `input.isVideo` is truthy — the inline video-thumbnail
transformation.  `now` stands for `Date.now()`. -/
def mkUploadOptions (input : UploadMediaInput) (now : Nat) : UploadOptions :=
  { file := input.mediaDataUri
    fileName := "media-" ++ toString now
    useUniqueFileName := true
    transformation :=
      if input.isVideo = some true then some videoThumbnailTransformation else none }

/-- The upload options built by the unnamed variant: identical to
`mkUploadOptions` except for the transformation attached to videos. -/
def mkUploadOptionsAlt (input : UploadMediaInput) (now : Nat) : UploadOptions :=
  { file := input.mediaDataUri
    fileName := "media-" ++ toString now
    useUniqueFileName := true
    transformation :=
      if input.isVideo = some true then some preNamedThumbnailTransformation else none }

/-- The body of the named variant's `try` block after the service call:
throw the service error through, throw on a response without a truthy
URL, otherwise build the output, with the thumbnail falling back to the
metadata location (`response.thumbnailUrl || (response.metadata as any)?.thumbnailUrl`). -/
def uploadTryBody (resp : Except JsError UploadResponse) : Except JsError UploadMediaOutput :=
  match resp with
  | Except.error e => Except.error e
  | Except.ok response =>
    if jsTruthy response.url then
      Except.ok
        { mediaUrl := response.url.getD ("")
          thumbnailUrl := jsOr response.thumbnailUrl response.metadataThumbnailUrl }
    else
      Except.error { message := some noUrlMsg }

/-- The body of the unnamed variant's `try` block: identical to
`uploadTryBody` except that the thumbnail is taken from
`response.thumbnailUrl` alone, with no metadata fallback. -/
def uploadTryBodyAlt (resp : Except JsError UploadResponse) : Except JsError UploadMediaOutput :=
  match resp with
  | Except.error e => Except.error e
  | Except.ok response =>
    if jsTruthy response.url then
      Except.ok
        { mediaUrl := response.url.getD ("")
          thumbnailUrl := response.thumbnailUrl }
    else
      Except.error { message := some noUrlMsg }

/-- `uploadMediaFlow` of `upload-media-flow.ts`: build the options, call
the service, and on any caught error re-throw
`Media upload failed: ${error.message || 'Unknown ImageKit error'}`. -/
def uploadMediaFlow (svc : UploadService) (now : Nat) (input : UploadMediaInput) :
    Except String UploadMediaOutput :=
  match uploadTryBody (svc (mkUploadOptions input now)) with
  | Except.ok out => Except.ok out
  | Except.error e =>
      Except.error (uploadFailedPrefixMsg ++ errMessageOr e unknownImageKitErrorMsg)

/-- `uploadMediaFlow` of the unnamed variant: build the (alt) options,
call the service, and on any caught error re-throw
`error.message || 'An unknown error occurred during media upload.'`. -/
def uploadMediaFlowAlt (svc : UploadService) (now : Nat) (input : UploadMediaInput) :
    Except String UploadMediaOutput :=
  match uploadTryBodyAlt (svc (mkUploadOptionsAlt input now)) with
  | Except.ok out => Except.ok out
  | Except.error e =>
      Except.error (errMessageOr e unknownUploadErrorMsg)

/-- `uploadMedia` of `upload-media-flow.ts`: delegates to the flow. -/
def uploadMedia (svc : UploadService) (now : Nat) (input : UploadMediaInput) :
    Except String UploadMediaOutput :=
  uploadMediaFlow svc now input

/-- `uploadMedia` of the unnamed variant: delegates to its flow. -/
def uploadMediaAlt (svc : UploadService) (now : Nat) (input : UploadMediaInput) :
    Except String UploadMediaOutput :=
  uploadMediaFlowAlt svc now input

/-- `mediaType` enum of `ProcessMediaInputSchema`. -/
inductive MediaType where
  | image
  | video
deriving DecidableEq, Repr

/-- `ProcessMediaInput` of the orchestrator flow. -/
structure ProcessMediaInput where
  mediaDataUri : String
  mediaType : MediaType
deriving DecidableEq, Repr

/-- `ProcessMediaOutput` of the orchestrator flow. -/
structure ProcessMediaOutput where
  mediaUrl : String
  thumbnailUrl : Option String
  dominantColor : Option String
deriving DecidableEq, Repr

/-- `ColorExtractOutputSchema`: the structured output of the color
model, a required dominant color string. -/
structure ColorExtractOutput where
  dominantColor : String
deriving DecidableEq, Repr

/-- The value returned by awaiting `colorExtractPrompt`: its `output`
field may be absent (`colorResult.output?.dominantColor`). -/
structure ColorModelResult where
  output : Option ColorExtractOutput
deriving DecidableEq, Repr

/-- The behaviour of the external color model on one photo data URI:
either a thrown error or a result. -/
abbrev ColorModel := String → Except JsError ColorModelResult

/-- Step 2 of the orchestrator for an image: call the color model and
read `colorResult.output?.dominantColor`; any caught error yields no
color (`undefined`), never a failure. -/
def extractColorStep (colorModel : ColorModel) (photoDataUri : String) : Option String :=
  match colorModel photoDataUri with
  | Except.ok colorResult => colorResult.output.map ColorExtractOutput.dominantColor
  | Except.error _ => none

/-- The upload input built by the orchestrator (step 1):
`isVideo: input.mediaType === 'video'`. -/
def mkProcessUploadInput (input : ProcessMediaInput) : UploadMediaInput :=
  { mediaDataUri := input.mediaDataUri
    isVideo := some (decide (input.mediaType = MediaType.video)) }

/-- The remainder of `processAndUploadMediaFlow` after the upload await:
propagate an upload error, guard on a falsy `mediaUrl`, run the color
step only for images, and assemble the `ProcessMediaOutput`. -/
def processAfterUpload (colorModel : ColorModel) (input : ProcessMediaInput)
    (uploadResult : Except String UploadMediaOutput) : Except String ProcessMediaOutput :=
  match uploadResult with
  | Except.error e => Except.error e
  | Except.ok u =>
    if u.mediaUrl = "" then
      Except.error processNoUrlMsg
    else
      Except.ok
        { mediaUrl := u.mediaUrl
          thumbnailUrl := u.thumbnailUrl
          dominantColor :=
            if input.mediaType = MediaType.image then
              extractColorStep colorModel input.mediaDataUri
            else none }

/-- `processAndUploadMediaFlow` of `process-and-upload-media-flow.ts`:
upload via the named `uploadMedia`, then the guarded color/assemble
steps. -/
def processAndUploadMediaFlow (svc : UploadService) (colorModel : ColorModel) (now : Nat)
    (input : ProcessMediaInput) : Except String ProcessMediaOutput :=
  processAfterUpload colorModel input (uploadMedia svc now (mkProcessUploadInput input))

/-- `processAndUploadMedia`: delegates to the flow. -/
def processAndUploadMedia (svc : UploadService) (colorModel : ColorModel) (now : Nat)
    (input : ProcessMediaInput) : Except String ProcessMediaOutput :=
  processAndUploadMediaFlow svc colorModel now input

/-! ### Concrete collaborators and inputs used by witnesses -/

/-- A media URL used in witness scenarios. -/
def wUrl : String := "https://cdn.example/x.png"

/-- A thumbnail URL used in witness scenarios. -/
def wThumb : String := "https://cdn.example/x.jpg"

/-- A data URI used in witness scenarios. -/
def wData : String := "data:image/png;base64,AAAA"

/-- A service response with URL and thumbnail. -/
def wRespFull : UploadResponse := ⟨some wUrl, some wThumb, none⟩

/-- A service response whose primary thumbnail is present but empty,
with a metadata thumbnail. -/
def wRespEmptyThumb : UploadResponse := ⟨some wUrl, some (""), some wThumb⟩

/-- A service that succeeds with `wRespFull`. -/
def svcOk : UploadService := fun _ => Except.ok wRespFull

/-- A service that succeeds with `wRespEmptyThumb`. -/
def svcEmptyThumb : UploadService := fun _ => Except.ok wRespEmptyThumb

/-- A service response without a primary thumbnail but with a metadata
thumbnail. -/
def wRespMetaOnly : UploadResponse := ⟨some wUrl, none, some wThumb⟩

/-- A service that succeeds with `wRespMetaOnly`. -/
def svcMetaOnly : UploadService := fun _ => Except.ok wRespMetaOnly

/-- A service that throws an error with message `boom`. -/
def svcErrBoom : UploadService := fun _ => Except.error ⟨some ("boom")⟩

/-- A service that responds without any URL. -/
def svcNoUrl : UploadService := fun _ => Except.ok ⟨none, none, none⟩

/-- A color model that throws. -/
def cmFail : ColorModel := fun _ => Except.error ⟨some ("model down")⟩

/-- A color model that succeeds with `#1A2B3C`. -/
def cmOk : ColorModel := fun _ => Except.ok ⟨some ⟨("#1A2B3C")⟩⟩

/-- An image processing request. -/
def wImageInput : ProcessMediaInput := ⟨wData, MediaType.image⟩

/-- A video processing request. -/
def wVideoInput : ProcessMediaInput := ⟨wData, MediaType.video⟩

/-- An upload request without the video flag. -/
def wUploadInput : UploadMediaInput := ⟨wData, none⟩

/-- An upload request with the video flag. -/
def wUploadInputVideo : UploadMediaInput := ⟨wData, some true⟩

/-! ### Helper lemmas -/

/-- A JS string-or-undefined is truthy exactly when it is a non-empty string. -/
lemma jsTruthy_iff (o : Option String) : jsTruthy o = true ↔ ∃ s, o = some s ∧ s ≠ "" := by
  cases o <;> simp [jsTruthy]

/-- Inversion for a successful run of the named upload flow: the service
returned a response with a truthy URL, and the output fields come from it. -/
lemma upload_ok_inv (svc : UploadService) (now : Nat) (input : UploadMediaInput)
    (u : UploadMediaOutput) (h : uploadMediaFlow svc now input = Except.ok u) :
    ∃ r, svc (mkUploadOptions input now) = Except.ok r ∧ jsTruthy r.url = true ∧
      u.mediaUrl = r.url.getD ("") ∧
      u.thumbnailUrl = jsOr r.thumbnailUrl r.metadataThumbnailUrl := by
  unfold uploadMediaFlow at h
  cases hr : svc (mkUploadOptions input now) with
  | error e => rw [hr] at h; simp [uploadTryBody] at h
  | ok r =>
    rw [hr] at h
    by_cases hu : jsTruthy r.url = true
    · refine ⟨r, rfl, hu, ?_, ?_⟩ <;> simp [uploadTryBody, hu] at h <;> simp [← h]
    · rw [uploadTryBody, if_neg hu] at h; simp at h

/-- Inversion for a successful run of the unnamed upload flow variant:
the service returned a response with a truthy URL, and the thumbnail is
the response's primary field, with no metadata fallback. -/
lemma upload_ok_inv_alt (svc : UploadService) (now : Nat) (input : UploadMediaInput)
    (u : UploadMediaOutput) (h : uploadMediaFlowAlt svc now input = Except.ok u) :
    ∃ r, svc (mkUploadOptionsAlt input now) = Except.ok r ∧ jsTruthy r.url = true ∧
      u.mediaUrl = r.url.getD ("") ∧
      u.thumbnailUrl = r.thumbnailUrl := by
  unfold uploadMediaFlowAlt at h
  cases hr : svc (mkUploadOptionsAlt input now) with
  | error e => rw [hr] at h; simp [uploadTryBodyAlt] at h
  | ok r =>
    rw [hr] at h
    by_cases hu : jsTruthy r.url = true
    · refine ⟨r, rfl, hu, ?_, ?_⟩ <;> simp [uploadTryBodyAlt, hu] at h <;> simp [← h]
    · rw [uploadTryBodyAlt, if_neg hu] at h; simp at h

/-- A successful named upload never carries an empty media URL. -/
lemma upload_ok_mediaUrl_ne (svc : UploadService) (now : Nat) (input : UploadMediaInput)
    (u : UploadMediaOutput) (h : uploadMediaFlow svc now input = Except.ok u) :
    ¬ u.mediaUrl = "" := by
  obtain ⟨r, -, hu, hmu, -⟩ := upload_ok_inv svc now input u h
  obtain ⟨s, hs, hne⟩ := (jsTruthy_iff r.url).mp hu
  rw [hmu, hs]
  simpa using hne

/-- Every error of the named upload flow starts with the fixed prefix. -/
lemma upload_error_shape (svc : UploadService) (now : Nat) (input : UploadMediaInput)
    (msg : String) (h : uploadMediaFlow svc now input = Except.error msg) :
    ∃ m, msg = uploadFailedPrefixMsg ++ m := by
  unfold uploadMediaFlow at h
  cases hr : uploadTryBody (svc (mkUploadOptions input now)) with
  | error e => rw [hr] at h; exact ⟨errMessageOr e unknownImageKitErrorMsg, by simpa using h.symm⟩
  | ok u => rw [hr] at h; simp at h

/-- The fixed upload-failure prefix makes its messages differ from the
orchestrator's missing-URL message. -/
lemma prefixed_ne_processNoUrl (m : String) : uploadFailedPrefixMsg ++ m ≠ processNoUrlMsg := by
  intro h
  obtain ⟨l⟩ := m
  have h2 : ("Media upload failed: ").data ++ l = processNoUrlMsg.data := congrArg String.data h
  have h3 := congrArg (List.take 21) h2
  rw [List.take_left' (by decide)] at h3
  exact absurd h3 (by decide)

/-! ### Claim theorems -/

/-- Claim C1: for every image input whose upload step succeeds, a failing
color-extraction call still yields a successful result whose media and
thumbnail URLs come from the upload result and whose dominant color is
absent; the extraction error is never propagated. -/
theorem claim_c1_color_failure_recovered
    (svc : UploadService) (colorModel : ColorModel) (now : Nat) (input : ProcessMediaInput)
    (u : UploadMediaOutput) (e : JsError)
    (himg : input.mediaType = MediaType.image)
    (hup : uploadMedia svc now (mkProcessUploadInput input) = Except.ok u)
    (hcol : colorModel input.mediaDataUri = Except.error e) :
    processAndUploadMedia svc colorModel now input
      = Except.ok { mediaUrl := u.mediaUrl, thumbnailUrl := u.thumbnailUrl, dominantColor := none } := by
  have hne := upload_ok_mediaUrl_ne svc now (mkProcessUploadInput input) u hup
  simp only [processAndUploadMedia, processAndUploadMediaFlow, processAfterUpload, hup,
    if_neg hne, himg, if_true, extractColorStep, hcol]

/-- Claim C1 witness. -/
theorem claim_c1_witness :
    processAndUploadMedia svcOk cmFail 0 wImageInput
      = Except.ok { mediaUrl := wUrl, thumbnailUrl := some wThumb, dominantColor := none } :=
  claim_c1_color_failure_recovered svcOk cmFail 0 wImageInput ⟨wUrl, some wThumb⟩
    ⟨some ("model down")⟩ rfl rfl rfl

/-- Claim C2: for every video input the color-extraction step is never
invoked (the result does not depend on the color model at all), and any
successful result has no dominant color. -/
theorem claim_c2_video_never_extracts
    (svc : UploadService) (cm cm2 : ColorModel) (now : Nat) (input : ProcessMediaInput)
    (hvid : input.mediaType = MediaType.video) :
    processAndUploadMedia svc cm now input = processAndUploadMedia svc cm2 now input ∧
    (∀ r, processAndUploadMedia svc cm now input = Except.ok r → r.dominantColor = none) := by
  have himg : ¬ input.mediaType = MediaType.image := by rw [hvid]; intro h; cases h
  constructor
  · simp only [processAndUploadMedia, processAndUploadMediaFlow, processAfterUpload, if_neg himg]
  · intro r hr
    simp only [processAndUploadMedia, processAndUploadMediaFlow] at hr
    cases hu : uploadMedia svc now (mkProcessUploadInput input) with
    | error e => rw [hu] at hr; simp [processAfterUpload] at hr
    | ok u =>
      rw [hu] at hr
      by_cases hmu : u.mediaUrl = ""
      · simp only [processAfterUpload, if_pos hmu] at hr; cases hr
      · simp only [processAfterUpload, if_neg hmu, if_neg himg] at hr
        cases hr
        rfl

/-- Claim C2 witness. -/
theorem claim_c2_witness :
    processAndUploadMedia svcOk cmFail 0 wVideoInput = processAndUploadMedia svcOk cmOk 0 wVideoInput ∧
    (ProcessMediaOutput.mk wUrl (some wThumb) none).dominantColor = none :=
  ⟨(claim_c2_video_never_extracts svcOk cmFail cmOk 0 wVideoInput rfl).1,
   (claim_c2_video_never_extracts svcOk cmFail cmOk 0 wVideoInput rfl).2
     ⟨wUrl, some wThumb, none⟩ rfl⟩

/-- Claim C3: whenever the service response lacks a truthy URL, both
upload flow variants fail (with the respective sanitized message) and
neither ever returns any, even partial, result. -/
theorem claim_c3_no_url_fails
    (svc : UploadService) (now : Nat) (input : UploadMediaInput)
    (r rAlt : UploadResponse)
    (hr : svc (mkUploadOptions input now) = Except.ok r)
    (hurl : jsTruthy r.url = false)
    (hrAlt : svc (mkUploadOptionsAlt input now) = Except.ok rAlt)
    (hurlAlt : jsTruthy rAlt.url = false) :
    uploadMedia svc now input = Except.error (uploadFailedPrefixMsg ++ noUrlMsg) ∧
    (∀ o : UploadMediaOutput, uploadMedia svc now input ≠ Except.ok o) ∧
    uploadMediaAlt svc now input = Except.error noUrlMsg ∧
    (∀ o : UploadMediaOutput, uploadMediaAlt svc now input ≠ Except.ok o) := by
  have h1 : uploadMedia svc now input = Except.error (uploadFailedPrefixMsg ++ noUrlMsg) := by
    rw [uploadMedia, uploadMediaFlow, hr, uploadTryBody, if_neg (by rw [hurl]; intro h; cases h)]
    rfl
  have h2 : uploadMediaAlt svc now input = Except.error noUrlMsg := by
    rw [uploadMediaAlt, uploadMediaFlowAlt, hrAlt, uploadTryBodyAlt,
      if_neg (by rw [hurlAlt]; intro h; cases h)]
    rfl
  refine ⟨h1, ?_, h2, ?_⟩
  · intro o ho; rw [h1] at ho; cases ho
  · intro o ho; rw [h2] at ho; cases ho

/-- Claim C3 witness. -/
theorem claim_c3_witness :
    uploadMedia svcNoUrl 0 wUploadInput = Except.error (uploadFailedPrefixMsg ++ noUrlMsg) ∧
    uploadMedia svcNoUrl 0 wUploadInput ≠ Except.ok (UploadMediaOutput.mk wUrl none) ∧
    uploadMediaAlt svcNoUrl 0 wUploadInput = Except.error noUrlMsg ∧
    uploadMediaAlt svcNoUrl 0 wUploadInput ≠ Except.ok (UploadMediaOutput.mk wUrl none) := by
  have h := claim_c3_no_url_fails svcNoUrl 0 wUploadInput ⟨none, none, none⟩ ⟨none, none, none⟩
    rfl rfl rfl rfl
  exact ⟨h.1, h.2.1 ⟨wUrl, none⟩, h.2.2.1, h.2.2.2 ⟨wUrl, none⟩⟩

/-- Claim C4: the options passed to the service carry the
video-thumbnail transformation exactly for requests with the video flag
set to true; for a false or absent flag no transformation is attached
(in either variant). -/
theorem claim_c4_transformation_iff_video (input : UploadMediaInput) (now : Nat) :
    (input.isVideo = some true →
      (mkUploadOptions input now).transformation = some videoThumbnailTransformation ∧
      (mkUploadOptionsAlt input now).transformation = some preNamedThumbnailTransformation) ∧
    (input.isVideo ≠ some true →
      (mkUploadOptions input now).transformation = none ∧
      (mkUploadOptionsAlt input now).transformation = none) := by
  constructor
  · intro h
    exact ⟨by simp [mkUploadOptions, h], by simp [mkUploadOptionsAlt, h]⟩
  · intro h
    exact ⟨by simp [mkUploadOptions, h], by simp [mkUploadOptionsAlt, h]⟩

/-- Claim C4 witness. -/
theorem claim_c4_witness :
    (mkUploadOptions wUploadInputVideo 0).transformation = some videoThumbnailTransformation ∧
    (mkUploadOptionsAlt wUploadInputVideo 0).transformation = some preNamedThumbnailTransformation ∧
    (mkUploadOptions wUploadInput 0).transformation = none ∧
    (mkUploadOptionsAlt wUploadInput 0).transformation = none := by
  have hv := (claim_c4_transformation_iff_video wUploadInputVideo 0).1 rfl
  have hn := (claim_c4_transformation_iff_video wUploadInput 0).2 (by intro h; cases h)
  exact ⟨hv.1, hv.2, hn.1, hn.2⟩

/-- Claim C5: the orchestrator calls the named upload flow with
`isVideo = (mediaType == video)`; an upload failure is propagated as-is
and the color model is never consulted; an upload result with a falsy
media URL makes the orchestrator fail with exactly
`Media upload failed to return a URL.`. -/
theorem claim_c5_orchestrator_upload_contract
    (svc : UploadService) (cm cm2 : ColorModel) (now : Nat) (input : ProcessMediaInput) :
    (mkProcessUploadInput input).isVideo = some (decide (input.mediaType = MediaType.video)) ∧
    processAndUploadMedia svc cm now input
      = processAfterUpload cm input (uploadMedia svc now (mkProcessUploadInput input)) ∧
    (∀ e, uploadMedia svc now (mkProcessUploadInput input) = Except.error e →
      processAndUploadMedia svc cm now input = Except.error e ∧
      processAndUploadMedia svc cm now input = processAndUploadMedia svc cm2 now input) ∧
    (∀ u : UploadMediaOutput, u.mediaUrl = "" →
      processAfterUpload cm input (Except.ok u) = Except.error processNoUrlMsg) := by
  refine ⟨rfl, rfl, ?_, ?_⟩
  · intro e he
    constructor
    · simp only [processAndUploadMedia, processAndUploadMediaFlow, he, processAfterUpload]
    · simp only [processAndUploadMedia, processAndUploadMediaFlow, he, processAfterUpload]
  · intro u hu
    simp only [processAfterUpload, if_pos hu]

/-- Claim C5 witness. -/
theorem claim_c5_witness :
    (mkProcessUploadInput wImageInput).isVideo
      = some (decide (wImageInput.mediaType = MediaType.video)) ∧
    processAndUploadMedia svcErrBoom cmFail 0 wImageInput
      = processAfterUpload cmFail wImageInput
          (uploadMedia svcErrBoom 0 (mkProcessUploadInput wImageInput)) ∧
    processAndUploadMedia svcErrBoom cmFail 0 wImageInput
      = Except.error ("Media upload failed: boom") ∧
    processAndUploadMedia svcErrBoom cmFail 0 wImageInput
      = processAndUploadMedia svcErrBoom cmOk 0 wImageInput ∧
    processAfterUpload cmFail wImageInput (Except.ok ⟨(""), none⟩)
      = Except.error processNoUrlMsg := by
  have h := claim_c5_orchestrator_upload_contract svcErrBoom cmFail cmOk 0 wImageInput
  have he := h.2.2.1 ("Media upload failed: boom") rfl
  exact ⟨h.1, h.2.1, he.1, he.2, h.2.2.2 ⟨(""), none⟩ rfl⟩


/-- Claim C6 counterexample: the named flow surfaces
`Media upload failed: boom` for a service error with message `boom`, so
the surfaced message is not exactly the underlying error's text. -/
theorem claim_c6_counterexample :
    uploadMedia svcErrBoom 0 wUploadInput = Except.error ("Media upload failed: boom") ∧
    ("Media upload failed: boom" : String) ≠ ("boom") ∧
    uploadMedia svcErrBoom 0 wUploadInput ≠ Except.error ("boom") := by
  refine ⟨rfl, by decide, ?_⟩
  intro h
  have h1 : uploadMedia svcErrBoom 0 wUploadInput
      = Except.error ("Media upload failed: boom") := rfl
  rw [h1] at h
  have h2 : ("Media upload failed: boom" : String) = ("boom") := by injection h
  exact absurd h2 (by decide)

/-- Claim C6 (amended): the named flow surfaces the fixed prefix
`Media upload failed: ` followed by the underlying error's text when
that text is non-empty and by its generic fallback otherwise; the
unnamed flow surfaces exactly the text, or its own generic fallback;
when the response merely lacks a URL the surfaced message is a fixed
string — in no case does the raw service payload reach the caller. -/
theorem claim_c6_sanitized_messages
    (svc : UploadService) (now : Nat) (input : UploadMediaInput) (e : JsError) :
    (svc (mkUploadOptions input now) = Except.error e →
      uploadMedia svc now input
        = Except.error (uploadFailedPrefixMsg ++ errMessageOr e unknownImageKitErrorMsg)) ∧
    (svc (mkUploadOptionsAlt input now) = Except.error e →
      uploadMediaAlt svc now input = Except.error (errMessageOr e unknownUploadErrorMsg)) ∧
    (jsTruthy e.message = true → ∀ f, errMessageOr e f = e.message.getD ("")) ∧
    (jsTruthy e.message = false → ∀ f, errMessageOr e f = f) ∧
    (∀ r, svc (mkUploadOptions input now) = Except.ok r → jsTruthy r.url = false →
      uploadMedia svc now input = Except.error (uploadFailedPrefixMsg ++ noUrlMsg)) ∧
    (∀ r, svc (mkUploadOptionsAlt input now) = Except.ok r → jsTruthy r.url = false →
      uploadMediaAlt svc now input = Except.error noUrlMsg) := by
  refine ⟨?_, ?_, ?_, ?_, ?_, ?_⟩
  · intro he
    simp only [uploadMedia, uploadMediaFlow, he, uploadTryBody]
  · intro he
    simp only [uploadMediaAlt, uploadMediaFlowAlt, he, uploadTryBodyAlt]
  · intro ht f
    rcases e with ⟨m⟩
    cases m with
    | none => simp [jsTruthy] at ht
    | some s =>
      have hs : ¬ s = "" := by simpa [jsTruthy] using ht
      simp [errMessageOr, hs]
  · intro hf f
    rcases e with ⟨m⟩
    cases m with
    | none => simp [errMessageOr]
    | some s =>
      have hs : s = "" := by simpa [jsTruthy] using hf
      simp [errMessageOr, hs]
  · intro r hr hurl
    rw [uploadMedia, uploadMediaFlow, hr, uploadTryBody,
      if_neg (by rw [hurl]; intro h; cases h)]
    rfl
  · intro r hr hurl
    rw [uploadMediaAlt, uploadMediaFlowAlt, hr, uploadTryBodyAlt,
      if_neg (by rw [hurl]; intro h; cases h)]
    rfl

/-- Claim C6 witness. -/
theorem claim_c6_witness :
    uploadMedia svcErrBoom 0 wUploadInput = Except.error ("Media upload failed: boom") ∧
    uploadMediaAlt svcErrBoom 0 wUploadInput = Except.error ("boom") ∧
    errMessageOr ⟨some ("boom")⟩ unknownImageKitErrorMsg = ("boom") ∧
    errMessageOr ⟨none⟩ unknownUploadErrorMsg = unknownUploadErrorMsg ∧
    uploadMedia svcNoUrl 0 wUploadInput = Except.error (uploadFailedPrefixMsg ++ noUrlMsg) ∧
    uploadMediaAlt svcNoUrl 0 wUploadInput = Except.error noUrlMsg := by
  have hb := claim_c6_sanitized_messages svcErrBoom 0 wUploadInput ⟨some ("boom")⟩
  have hn := claim_c6_sanitized_messages svcNoUrl 0 wUploadInput ⟨none⟩
  exact ⟨hb.1 rfl, hb.2.1 rfl, hb.2.2.1 rfl unknownImageKitErrorMsg,
    hn.2.2.2.1 rfl unknownUploadErrorMsg,
    hn.2.2.2.2.1 ⟨none, none, none⟩ rfl rfl,
    hn.2.2.2.2.2 ⟨none, none, none⟩ rfl rfl⟩

/-- Claim C7 counterexample, against both implementations the claim's
sources cite: (a) a response whose primary thumbnail field is present
but empty makes the named flow return the metadata thumbnail, not the
(present) primary field; (b) a response with no primary thumbnail but a
metadata thumbnail makes the unnamed variant return no thumbnail at
all, not the metadata one. -/
theorem claim_c7_counterexample :
    wRespEmptyThumb.thumbnailUrl = some ("") ∧
    (wRespEmptyThumb.thumbnailUrl).isSome = true ∧
    uploadMedia svcEmptyThumb 0 wUploadInput
      = Except.ok (UploadMediaOutput.mk wUrl (some wThumb)) ∧
    some wThumb ≠ wRespEmptyThumb.thumbnailUrl ∧
    wRespMetaOnly.thumbnailUrl = none ∧
    wRespMetaOnly.metadataThumbnailUrl = some wThumb ∧
    uploadMediaAlt svcMetaOnly 0 wUploadInput
      = Except.ok (UploadMediaOutput.mk wUrl none) ∧
    (none : Option String) ≠ wRespMetaOnly.metadataThumbnailUrl :=
  ⟨rfl, rfl, rfl, by decide, rfl, rfl, rfl, by decide⟩

/-- Claim C7 (amended): on success the named flow's thumbnail is the
primary field when that is present AND non-empty, and the metadata
location's value otherwise; the unnamed variant's thumbnail is always
exactly the response's primary field, with no metadata fallback. -/
theorem claim_c7_thumbnail_fallback
    (svc : UploadService) (now : Nat) (input : UploadMediaInput) (r : UploadResponse) :
    (∀ u : UploadMediaOutput, svc (mkUploadOptions input now) = Except.ok r →
      uploadMedia svc now input = Except.ok u →
      u.thumbnailUrl = jsOr r.thumbnailUrl r.metadataThumbnailUrl ∧
      (jsTruthy r.thumbnailUrl = true → u.thumbnailUrl = r.thumbnailUrl) ∧
      (jsTruthy r.thumbnailUrl = false → u.thumbnailUrl = r.metadataThumbnailUrl)) ∧
    (∀ u : UploadMediaOutput, svc (mkUploadOptionsAlt input now) = Except.ok r →
      uploadMediaAlt svc now input = Except.ok u →
      u.thumbnailUrl = r.thumbnailUrl) := by
  constructor
  · intro u hr hu
    obtain ⟨r2, hr2, hurl, hmu, hth⟩ := upload_ok_inv svc now input u hu
    rw [hr] at hr2
    injection hr2 with hr2
    subst hr2
    refine ⟨hth, ?_, ?_⟩
    · intro ht
      rw [hth, jsOr, if_pos ht]
    · intro hf
      rw [hth, jsOr, if_neg (by rw [hf]; intro h; cases h)]
  · intro u hr hu
    obtain ⟨r2, hr2, hurl, hmu, hth⟩ := upload_ok_inv_alt svc now input u hu
    rw [hr] at hr2
    injection hr2 with hr2
    subst hr2
    exact hth

/-- Claim C7 witness. -/
theorem claim_c7_witness :
    (UploadMediaOutput.mk wUrl (some wThumb)).thumbnailUrl
      = jsOr wRespFull.thumbnailUrl wRespFull.metadataThumbnailUrl ∧
    (UploadMediaOutput.mk wUrl (some wThumb)).thumbnailUrl = wRespFull.thumbnailUrl ∧
    (UploadMediaOutput.mk wUrl (some wThumb)).thumbnailUrl
      = wRespEmptyThumb.metadataThumbnailUrl ∧
    (UploadMediaOutput.mk wUrl none).thumbnailUrl = wRespMetaOnly.thumbnailUrl := by
  have h1 := (claim_c7_thumbnail_fallback svcOk 0 wUploadInput wRespFull).1
    ⟨wUrl, some wThumb⟩ rfl rfl
  have h2 := (claim_c7_thumbnail_fallback svcEmptyThumb 0 wUploadInput wRespEmptyThumb).1
    ⟨wUrl, some wThumb⟩ rfl rfl
  have h3 := (claim_c7_thumbnail_fallback svcMetaOnly 0 wUploadInput wRespMetaOnly).2
    ⟨wUrl, none⟩ rfl rfl
  exact ⟨h1.1, h1.2.1 rfl, h2.2.2 rfl, h3⟩

/-- Claim C8 counterexample: on an `isVideo`-absent request and an
identical service behaviour (a thrown error with message `boom`) the two
variants fail with different error strings, so they are not
observationally equivalent outside the two thumbnail-related aspects. -/
theorem claim_c8_counterexample :
    wUploadInput.isVideo = none ∧
    uploadMedia svcErrBoom 0 wUploadInput = Except.error ("Media upload failed: boom") ∧
    uploadMediaAlt svcErrBoom 0 wUploadInput = Except.error ("boom") ∧
    uploadMedia svcErrBoom 0 wUploadInput ≠ uploadMediaAlt svcErrBoom 0 wUploadInput := by
  refine ⟨rfl, rfl, rfl, ?_⟩
  intro h
  have h1 : uploadMedia svcErrBoom 0 wUploadInput
      = Except.error ("Media upload failed: boom") := rfl
  have h2 : uploadMediaAlt svcErrBoom 0 wUploadInput = Except.error ("boom") := rfl
  rw [h1, h2] at h
  have h3 : ("Media upload failed: boom" : String) = ("boom") := by injection h
  exact absurd h3 (by decide)

/-- Claim C8 (amended): for requests without the video flag the two
variants build identical service options; they succeed and fail
together; when the metadata thumbnail fallback is not exercised they
return equal results; and on a service error with a non-empty message
the named variant's error is `Media upload failed: ` followed by the
unnamed variant's error. -/
theorem claim_c8_variants_equiv
    (svc : UploadService) (now : Nat) (input : UploadMediaInput)
    (h : input.isVideo ≠ some true) :
    mkUploadOptions input now = mkUploadOptionsAlt input now ∧
    (∀ r, svc (mkUploadOptions input now) = Except.ok r → jsTruthy r.url = true →
      jsOr r.thumbnailUrl r.metadataThumbnailUrl = r.thumbnailUrl →
      uploadMedia svc now input = uploadMediaAlt svc now input) ∧
    (∀ e, svc (mkUploadOptions input now) = Except.error e → jsTruthy e.message = true →
      uploadMedia svc now input
        = Except.error (uploadFailedPrefixMsg ++ e.message.getD ("")) ∧
      uploadMediaAlt svc now input = Except.error (e.message.getD (""))) ∧
    ((∃ m, uploadMedia svc now input = Except.error m) ↔
      (∃ m, uploadMediaAlt svc now input = Except.error m)) := by
  have hopts : mkUploadOptions input now = mkUploadOptionsAlt input now := by
    simp [mkUploadOptions, mkUploadOptionsAlt, if_neg h]
  refine ⟨hopts, ?_, ?_, ?_⟩
  · intro r hr hurl hjs
    rw [uploadMedia, uploadMediaFlow, uploadMediaAlt, uploadMediaFlowAlt, ← hopts, hr,
      uploadTryBody, uploadTryBodyAlt, if_pos hurl, if_pos hurl, hjs]
  · intro e he ht
    rcases e with ⟨m⟩
    cases m with
    | none => simp [jsTruthy] at ht
    | some s =>
      have hs : ¬ s = "" := by simpa [jsTruthy] using ht
      constructor
      · simp only [uploadMedia, uploadMediaFlow, he, uploadTryBody]
        simp [errMessageOr, hs]
      · simp only [uploadMediaAlt, uploadMediaFlowAlt, ← hopts, he, uploadTryBodyAlt]
        simp [errMessageOr, hs]
  · cases hresp : svc (mkUploadOptions input now) with
    | error e =>
      constructor
      · intro _
        exact ⟨errMessageOr e unknownUploadErrorMsg,
          by simp only [uploadMediaAlt, uploadMediaFlowAlt, ← hopts, hresp, uploadTryBodyAlt]⟩
      · intro _
        exact ⟨uploadFailedPrefixMsg ++ errMessageOr e unknownImageKitErrorMsg,
          by simp only [uploadMedia, uploadMediaFlow, hresp, uploadTryBody]⟩
    | ok r =>
      by_cases hurl : jsTruthy r.url = true
      · constructor
        · rintro ⟨m, hm⟩
          rw [uploadMedia, uploadMediaFlow, hresp, uploadTryBody, if_pos hurl] at hm
          cases hm
        · rintro ⟨m, hm⟩
          rw [uploadMediaAlt, uploadMediaFlowAlt, ← hopts, hresp, uploadTryBodyAlt,
            if_pos hurl] at hm
          cases hm
      · constructor
        · intro _
          refine ⟨noUrlMsg, ?_⟩
          rw [uploadMediaAlt, uploadMediaFlowAlt, ← hopts, hresp, uploadTryBodyAlt, if_neg hurl]
          rfl
        · intro _
          refine ⟨uploadFailedPrefixMsg ++ noUrlMsg, ?_⟩
          rw [uploadMedia, uploadMediaFlow, hresp, uploadTryBody, if_neg hurl]
          rfl

/-- Claim C8 witness. -/
theorem claim_c8_witness :
    mkUploadOptions wUploadInput 0 = mkUploadOptionsAlt wUploadInput 0 ∧
    uploadMedia svcOk 0 wUploadInput = uploadMediaAlt svcOk 0 wUploadInput ∧
    uploadMedia svcErrBoom 0 wUploadInput = Except.error ("Media upload failed: boom") ∧
    uploadMediaAlt svcErrBoom 0 wUploadInput = Except.error ("boom") := by
  have hne : wUploadInput.isVideo ≠ some true := by intro hx; cases hx
  have hOk := claim_c8_variants_equiv svcOk 0 wUploadInput hne
  have hErr := claim_c8_variants_equiv svcErrBoom 0 wUploadInput hne
  have he := hErr.2.2.1 ⟨some ("boom")⟩ rfl rfl
  exact ⟨hOk.1, hOk.2.1 wRespFull rfl rfl rfl, he.1, he.2⟩

/-- Claim C9: on every successful run of the orchestrator, the media and
thumbnail URLs of the result are exactly those of the upload step's
result; only the dominant color depends on the color step. -/
theorem claim_c9_urls_from_upload
    (svc : UploadService) (cm : ColorModel) (now : Nat) (input : ProcessMediaInput)
    (u : UploadMediaOutput) (r : ProcessMediaOutput)
    (hup : uploadMedia svc now (mkProcessUploadInput input) = Except.ok u)
    (hr : processAndUploadMedia svc cm now input = Except.ok r) :
    r.mediaUrl = u.mediaUrl ∧ r.thumbnailUrl = u.thumbnailUrl := by
  have hne := upload_ok_mediaUrl_ne svc now (mkProcessUploadInput input) u hup
  simp only [processAndUploadMedia, processAndUploadMediaFlow, hup, processAfterUpload,
    if_neg hne] at hr
  cases hr
  exact ⟨rfl, rfl⟩

/-- Claim C9 witness. -/
theorem claim_c9_witness :
    (ProcessMediaOutput.mk wUrl (some wThumb) (some ("#1A2B3C"))).mediaUrl
      = (UploadMediaOutput.mk wUrl (some wThumb)).mediaUrl ∧
    (ProcessMediaOutput.mk wUrl (some wThumb) (some ("#1A2B3C"))).thumbnailUrl
      = (UploadMediaOutput.mk wUrl (some wThumb)).thumbnailUrl :=
  claim_c9_urls_from_upload svcOk cmOk 0 wImageInput ⟨wUrl, some wThumb⟩
    ⟨wUrl, some wThumb, some ("#1A2B3C")⟩ rfl rfl

/-- Claim C10: the orchestrator's missing-URL guard is unreachable: a
successful upload always carries the service's non-empty URL, so the
orchestrator never fails with `Media upload failed to return a URL.`. -/
theorem claim_c10_guard_unreachable
    (svc : UploadService) (cm : ColorModel) (now : Nat) :
    (∀ (i : UploadMediaInput) (u : UploadMediaOutput),
      uploadMedia svc now i = Except.ok u →
      ¬ u.mediaUrl = "" ∧
      (∀ r, svc (mkUploadOptions i now) = Except.ok r → r.url = some u.mediaUrl)) ∧
    (∀ input : ProcessMediaInput,
      processAndUploadMedia svc cm now input ≠ Except.error processNoUrlMsg) := by
  constructor
  · intro i u hu
    obtain ⟨r, hr, hurl, hmu, -⟩ := upload_ok_inv svc now i u hu
    obtain ⟨s, hs, hsne⟩ := (jsTruthy_iff r.url).mp hurl
    refine ⟨?_, ?_⟩
    · rw [hmu, hs]
      simpa using hsne
    · intro r2 hr2
      rw [hr] at hr2
      injection hr2 with hr2
      subst hr2
      simp [hs, hmu]
  · intro input hcontra
    cases hu : uploadMedia svc now (mkProcessUploadInput input) with
    | error e =>
      obtain ⟨m, hm⟩ := upload_error_shape svc now (mkProcessUploadInput input) e hu
      simp only [processAndUploadMedia, processAndUploadMediaFlow, hu,
        processAfterUpload] at hcontra
      have hem : e = processNoUrlMsg := by injection hcontra
      rw [hm] at hem
      exact prefixed_ne_processNoUrl m hem
    | ok u =>
      have hne := upload_ok_mediaUrl_ne svc now (mkProcessUploadInput input) u hu
      simp only [processAndUploadMedia, processAndUploadMediaFlow, hu, processAfterUpload,
        if_neg hne] at hcontra
      cases hcontra

/-- Claim C10 witness. -/
theorem claim_c10_witness :
    ¬ (UploadMediaOutput.mk wUrl (some wThumb)).mediaUrl = "" ∧
    wRespFull.url = some (UploadMediaOutput.mk wUrl (some wThumb)).mediaUrl ∧
    processAndUploadMedia svcOk cmOk 0 wImageInput ≠ Except.error processNoUrlMsg ∧
    processAndUploadMedia svcErrBoom cmOk 0 wImageInput ≠ Except.error processNoUrlMsg := by
  have h1 := (claim_c10_guard_unreachable svcOk cmOk 0).1 wUploadInput ⟨wUrl, some wThumb⟩ rfl
  exact ⟨h1.1, h1.2 wRespFull rfl, (claim_c10_guard_unreachable svcOk cmOk 0).2 wImageInput,
    (claim_c10_guard_unreachable svcErrBoom cmOk 0).2 wImageInput⟩
